import Mathlib

/-!
Shallow embedding of `src/origamid/tasks.py` (origami-daemon).

The module manages the lifecycle of a "demo" container: reconciling its
status against the container runtime (`update_demo_status`), reclaiming an
existing container (`remove_demo_instance_if_exist`) and (re)deploying
(`deploy_demo`).  External collaborators (the docker daemon, the `Demos`
table, the port allocator, the log-file store) are modelled as explicit
deterministic state; Python exceptions are modelled with an `Except` result.

Modelling conventions:
- the database is restricted to the single record addressed by the demo
  identity an operation works on (`Option Demo`), since every operation in
  the module reads and writes only that record;
- a docker API transport failure is injected per operation class through
  boolean fields of `DockerState` (`getFail`, `stopFail`, ...): the
  corresponding call raises `APIError` iff its flag is set, and performs no
  state change when it fails;
- Python truthiness of nullable columns (`if demo.container_id:`,
  `if not demo.port:`) is modelled exactly: `None` and the empty string /
  zero are falsy.
-/

namespace Origamid

/-- Python exceptions that appear in `tasks.py`. -/
inductive PyExc where
  | notFound
  | apiError
  | origamiConnErr
  | buildError
  | keyError
  | indexError
deriving DecidableEq

/-- The `aux` member of a structured docker build-log record; its `ID` field
holds the fully-qualified image digest when present. -/
structure AuxInfo where
  ID : Option String
deriving DecidableEq

/-- One JSON record of the docker build stream, restricted to the two fields
`tasks.py` reads: `stream` (free text) and `aux.ID`. -/
structure LogRecord where
  stream : Option String
  aux : Option AuxInfo
deriving DecidableEq

/-- A row of the `Demos` table, with the columns `tasks.py` uses. -/
structure Demo where
  demo_id : String
  log_id : String
  status : String
  container_id : Option String
  image_id : Option String
  port : Option Nat
deriving DecidableEq

/-- Runtime state of one docker container, as far as the module observes it:
its reported status string and whether it was started with auto-remove
(`remove=True`), which makes `stop` also delete it. -/
structure ContainerInfo where
  status : String
  autoRemove : Bool
deriving DecidableEq

/-- State and behaviour of the docker daemon: the containers it currently
holds (keyed by container id), per-operation transport-failure injection
flags, the build-log stream the next `cli.build` returns, and the id the
next `containers.run` assigns. -/
structure DockerState where
  containers : List (String × ContainerInfo)
  getFail : Bool
  stopFail : Bool
  removeFail : Bool
  buildFail : Bool
  runFail : Bool
  buildLog : List LogRecord
  next_container_id : String
deriving DecidableEq

/-- Python truthiness of a nullable string column. -/
def strTruthy : Option String → Bool
  | none => false
  | some s => !(decide (s = ""))

/-- Python truthiness of a nullable integer column. -/
def natTruthy : Option Nat → Bool
  | none => false
  | some n => !(decide (n = 0))

/-- Look a container up by id in the daemon state. -/
def lookupContainer (dk : DockerState) (cid : String) : Option ContainerInfo :=
  (dk.containers.find? (fun p => decide (p.fst = cid))).map Prod.snd

/-- Delete a container from the daemon state. -/
def removeContainer (dk : DockerState) (cid : String) : DockerState :=
  { dk with containers := dk.containers.filter (fun p => !(decide (p.fst = cid))) }

/-- Embedding of `docker_client.containers.get(cid)`: raises `APIError` on a
transport failure, `NotFound` when no such container exists. -/
def containers_get (dk : DockerState) (cid : String) : Except PyExc ContainerInfo :=
  if dk.getFail then .error .apiError
  else
    match lookupContainer dk cid with
    | some c => .ok c
    | none => .error .notFound

/-- How stopping the container `cid` rewrites one entry of the daemon's
container list: the stopped container's status becomes `exited`. -/
def stopEntry (cid : String) (ar : Bool) (p : String × ContainerInfo) :
    String × ContainerInfo :=
  if decide (p.fst = cid) then (p.fst, ContainerInfo.mk "exited" ar) else p

/-- Embedding of `container.stop(timeout=10)`: a stopped auto-remove
container is deleted by the daemon; otherwise its status becomes `exited`. -/
def container_stop (dk : DockerState) (cid : String) : Except PyExc DockerState :=
  if dk.stopFail then .error .apiError
  else
    match lookupContainer dk cid with
    | none => .error .notFound
    | some c =>
      if c.autoRemove then .ok (removeContainer dk cid)
      else .ok { dk with containers := dk.containers.map (stopEntry cid c.autoRemove) }

/-- Embedding of `container.remove()`. -/
def container_remove (dk : DockerState) (cid : String) : Except PyExc DockerState :=
  if dk.removeFail then .error .apiError
  else
    match lookupContainer dk cid with
    | none => .error .notFound
    | some _ => .ok (removeContainer dk cid)

/-- Embedding of `update_demo_status(demo)` (tasks.py lines 27-54).

`demo` is the in-memory row the caller passed; `db` is the persisted record
for that demo identity.  The result pairs the raised exception (if any) with
the persisted record after the call:
- `container_id` falsy: nothing happens;
- container found: `demo.status = container.status; demo.save()`;
- `NotFound`: `demo.container_id = None; demo.status = 'empty'; demo.save()`;
- `APIError`: re-raised as `OrigamiDockerConnectionError`, nothing saved. -/
def update_demo_status (dk : DockerState) (demo : Demo) (db : Option Demo) :
    Except PyExc Unit × Option Demo :=
  if strTruthy demo.container_id then
    match containers_get dk (demo.container_id.getD "") with
    | .ok c => (.ok (), some { demo with status := c.status })
    | .error .notFound => (.ok (), some { demo with container_id := none, status := "empty" })
    | .error _ => (.error .origamiConnErr, db)
  else (.ok (), db)

/-- The world an operation acts on: the persisted `Demos` record for the
demo identity at hand, the docker daemon, the deploy-log store (keyed by
`log_id`), the next `uuid4().hex` value, and the next port
`get_a_free_port()` returns. -/
structure World where
  db : Option Demo
  docker : DockerState
  logs : List (String × List LogRecord)
  fresh_log_id : String
  free_port : Nat
deriving DecidableEq

/-- Embedding of `remove_demo_instance_if_exist(demo_id, status)` (tasks.py
lines 57-118).  Returns the Python return value (a `Demos` row or `None`) or
the raised exception, together with the new world:
- no record, or `container_id` falsy: return `None`, nothing touched;
- `containers.get` raises `NotFound` (also from `stop`): log and return
  `None` without persisting;
- stop the container (bounded wait), re-get it and remove it if it still
  exists, tolerating `NotFound` from that inner get/remove;
- on success set `status := status`, clear `container_id` and `image_id`,
  save and return the row;
- on `APIError` anywhere set `status := 'error'`, save, and raise
  `OrigamiDockerConnectionError`. -/
def remove_demo_instance_if_exist (demo_id : String) (status : String) (w : World) :
    Except PyExc (Option Demo) × World :=
  match w.db with
  | none => (.ok none, w)
  | some demo =>
    if strTruthy demo.container_id then
      let cid := demo.container_id.getD ""
      match containers_get w.docker cid with
      | .error .notFound => (.ok none, w)
      | .error _ =>
        (.error .origamiConnErr, { w with db := some { demo with status := "error" } })
      | .ok _ =>
        match container_stop w.docker cid with
        | .error .notFound => (.ok none, w)
        | .error _ =>
          (.error .origamiConnErr, { w with db := some { demo with status := "error" } })
        | .ok dk1 =>
          -- inner `try: container = get(...); if container: container.remove()
          -- except NotFound: pass`
          let inner : Except PyExc DockerState :=
            match containers_get dk1 cid with
            | .error .notFound => .ok dk1
            | .error e => .error e
            | .ok _ =>
              match container_remove dk1 cid with
              | .error .notFound => .ok dk1
              | .error e => .error e
              | .ok dk2 => .ok dk2
          match inner with
          | .error _ =>
            (.error .origamiConnErr,
              { w with db := some { demo with status := "error" }, docker := dk1 })
          | .ok dk2 =>
            let demo2 : Demo :=
              { demo with status := status, container_id := none, image_id := none }
            (.ok (some demo2), { w with db := some demo2, docker := dk2 })
    else (.ok none, w)

/-- Observable outcome of one `deploy_demo` invocation: the early `return`
after the initial reclaim raised `OrigamiDockerConnectionError`; a normal
return through the final `demo.save()`; or an exception escaping the task. -/
inductive DeployOutcome where
  | aborted
  | completed
  | raised (e : PyExc)
deriving DecidableEq

/-- Python `str.strip()`: drop leading and trailing whitespace. -/
def pyStrip (s : String) : String :=
  String.mk (((s.data.dropWhile Char.isWhitespace).reverse.dropWhile Char.isWhitespace).reverse)

/-- Whether `re.match(r'Successfully built (.*)', s, re.M | re.I)` succeeds:
the string starts (case-insensitively) with `Successfully built `. -/
def success_match (s : String) : Bool :=
  ("Successfully built ".data.map Char.toLower).isPrefixOf (s.data.map Char.toLower)

/-- Embedding of the inner parse of tasks.py lines 166-177: given whether the
final message matched the success pattern, produce
`response[-2]['aux']['ID'][7:]`.  Every failure (`AttributeError` when the
regex did not match, `IndexError` when `response[-2]` is out of range,
`KeyError` when `aux` or `ID` is missing) is converted to `BuildError` by the
surrounding `except IndexError` / `except Exception` clauses. -/
def parse_image_id (matched : Bool) (response : List LogRecord) : Except PyExc String :=
  if !matched then .error .buildError
  else if response.length < 2 then .error .buildError
  else
    match response.get? (response.length - 2) with
    | none => .error .buildError
    | some r =>
      match r.aux with
      | none => .error .buildError
      | some a =>
        match a.ID with
        | none => .error .buildError
        | some s => .ok (String.mk (s.data.drop 7))

/-- Embedding of `containers.run(image_id, detach=True, name=demo_id,
ports=..., remove=True)`: the daemon assigns `next_container_id` to a fresh
auto-remove container reported as `running`. -/
def containers_run (dk : DockerState) : Except PyExc (String × DockerState) :=
  if dk.runFail then .error .apiError
  else
    .ok (dk.next_container_id,
      { dk with containers :=
          dk.containers ++ [(dk.next_container_id, ContainerInfo.mk "running" true)] })

/-- Embedding of tasks.py lines 186-202 followed by the final save: allocate
a port when `demo.port` is falsy, run the container (an `APIError` is caught
at line 208 and persists `status = 'error'`, keeping the mutations made so
far — `image_id` and a freshly allocated `port`), else record the container
id and persist `status = 'running'`. -/
def launch_and_save (demo3 : Demo) (w1 : World) : DeployOutcome × World :=
  let demo4 : Demo :=
    if natTruthy demo3.port then demo3
    else { demo3 with port := some w1.free_port }
  match containers_run w1.docker with
  | .error _ =>
    (.completed, { w1 with db := some { demo4 with status := "error" } })
  | .ok (cid, dk2) =>
    (.completed,
      { w1 with db := some { demo4 with container_id := some cid, status := "running" },
                docker := dk2 })

/-- Embedding of `response[-1]['stream']` (tasks.py line 164): `IndexError`
when the response is empty, `KeyError` when the final record has no `stream`
member.  Neither exception is `BuildError` or `APIError`, so both escape the
task. -/
def final_stream (response : List LogRecord) : Except PyExc String :=
  match response.getLast? with
  | none => .error .indexError
  | some lastRec =>
    match lastRec.stream with
    | none => .error .keyError
    | some sfinal => .ok sfinal

/-- Embedding of tasks.py lines 164-213 on the captured build `response`,
after the log was persisted: read `response[-1]['stream']` (a missing last
record or a missing `stream` key escapes the task as `IndexError` /
`KeyError`), match the success pattern, parse the image id (a `BuildError`
is caught at line 204 and persists `status = 'error'`), store `image_id` and
launch. -/
def build_finish (demo : Demo) (w1 : World) (response : List LogRecord) :
    DeployOutcome × World :=
  match final_stream response with
  | .error e => (.raised e, w1)
  | .ok sfinal =>
    match parse_image_id (success_match (pyStrip sfinal)) response with
    | .error _ =>
      (.completed, { w1 with db := some { demo with status := "error" } })
    | .ok image_id => launch_and_save { demo with image_id := some image_id } w1

/-- Embedding of the body of `deploy_demo` after the initial reclaim
(tasks.py lines 139-213), acting on the world `w0` the reclaim left:
load or create the row, build the image (an `APIError` from `cli.build` is
caught at line 208 and persists `status = 'error'`), write the build log
under the demo's `log_id` (lines 159-162), then finish via `build_finish`. -/
def deploy_body (demo_id : String) (w0 : World) : DeployOutcome × World :=
  let demo : Demo :=
    match w0.db with
    | some d => d
    | none => Demo.mk demo_id w0.fresh_log_id "deploying" none none none
  if w0.docker.buildFail then
    (.completed, { w0 with db := some { demo with status := "error" } })
  else
    build_finish demo { w0 with logs := (demo.log_id, w0.docker.buildLog) :: w0.logs }
      w0.docker.buildLog

/-- Embedding of `deploy_demo(demo_id, demo_dir)` (tasks.py lines 121-213).
The initial reclaim runs with target status `redeploying`; if it raises
`OrigamiDockerConnectionError` the task logs and returns early.  `demo_dir`
is accepted but never read: the build context is resolved from the HOME-based
config path joined with `demo_id`, whose build outcome the docker state
carries. -/
def deploy_demo (demo_id : String) (demo_dir : String) (w : World) :
    DeployOutcome × World :=
  match remove_demo_instance_if_exist demo_id "redeploying" w with
  | (.error _, w0) => (.aborted, w0)
  | (.ok _, w0) => deploy_body demo_id w0

/-! ## Helper lemmas and sample states -/

deriving instance DecidableEq for Except

/-- The status values the data model names for a demo record. -/
def demo_status_set : List String := ["empty", "deploying", "redeploying", "running", "error"]

/-- A successful docker build stream whose last two records are the
structured `aux` record carrying the digest and the free-text success line. -/
def sampleBuildLog : List LogRecord :=
  [LogRecord.mk none (some (AuxInfo.mk (some "sha256:deadbeef00"))),
   LogRecord.mk (some "Successfully built ab12cd34") none]

/-- A world with no persisted record and a healthy daemon about to report
`sampleBuildLog` for the next build. -/
def sampleWorldFresh : World :=
  World.mk none (DockerState.mk [] false false false false false sampleBuildLog "cont1") [] "lg4" 4001

/-- A container lookup that succeeds yields an element of the daemon's
container list. -/
theorem containers_get_ok_mem {dk : DockerState} {cid : String} {c : ContainerInfo}
    (h : containers_get dk cid = .ok c) : ∃ p, p ∈ dk.containers ∧ p.snd = c := by
  unfold containers_get lookupContainer at h
  cases hgf : dk.getFail with
  | true => rw [hgf] at h; simp at h
  | false =>
    rw [hgf] at h
    rcases hf : dk.containers.find? (fun p => decide (p.fst = cid)) with _ | p
    · rw [hf] at h; simp at h
    · rw [hf] at h
      simp at h
      exact ⟨p, List.mem_of_find?_eq_some hf, h⟩

/-- C3: for every demo record whose containerId is set, if the runtime
reports the container as not found, then after `update_demo_status` the
persisted record has `containerId` absent and `status = 'empty'`. -/
theorem reconcile_notfound_clears_container (dk : DockerState) (demo : Demo) (db : Option Demo)
    (hcid : strTruthy demo.container_id = true)
    (hget : containers_get dk (demo.container_id.getD "") = Except.error PyExc.notFound) :
    update_demo_status dk demo db =
      (Except.ok (), some { demo with container_id := none, status := "empty" }) := by
  unfold update_demo_status
  rw [hcid, hget]
  rfl

/-- Witness for `reconcile_notfound_clears_container` on a concrete record
whose container the daemon no longer holds. -/
theorem reconcile_notfound_clears_container_witness :
    update_demo_status (DockerState.mk [] false false false false false [] "n")
        (Demo.mk "d1" "lg1" "running" (some "c1") (some "im1") (some 4001))
        (some (Demo.mk "d1" "lg1" "running" (some "c1") (some "im1") (some 4001))) =
      (Except.ok (), some (Demo.mk "d1" "lg1" "empty" none (some "im1") (some 4001))) :=
  reconcile_notfound_clears_container _ _ _ (by decide) (by decide)

/-- C6: if the runtime raises a transport error while `update_demo_status`
queries the container, the call raises `OrigamiDockerConnectionError` and the
persisted record is unchanged. -/
theorem reconcile_transport_error_no_mutation (dk : DockerState) (demo : Demo) (db : Option Demo)
    (hcid : strTruthy demo.container_id = true)
    (hfail : dk.getFail = true) :
    update_demo_status dk demo db = (Except.error PyExc.origamiConnErr, db) := by
  unfold update_demo_status containers_get
  rw [hcid, hfail]
  simp

/-- Witness for `reconcile_transport_error_no_mutation` on a concrete record
with an unreachable daemon. -/
theorem reconcile_transport_error_no_mutation_witness :
    update_demo_status (DockerState.mk [("c1", ContainerInfo.mk "running" false)] true false false false false [] "n")
        (Demo.mk "d1" "lg1" "running" (some "c1") none (some 4001))
        (some (Demo.mk "d1" "lg1" "running" (some "c1") none (some 4001))) =
      (Except.error PyExc.origamiConnErr,
        some (Demo.mk "d1" "lg1" "running" (some "c1") none (some 4001))) :=
  reconcile_transport_error_no_mutation _ _ _ (by decide) (by decide)

/-- C8 counterexample: `update_demo_status` copies the runtime-reported
status verbatim, so a container reported as `exited` drives the persisted
status out of `{empty, deploying, redeploying, running, error}`. -/
theorem reconcile_status_set_counterexample :
    ∃ d, (update_demo_status
        (DockerState.mk [("c1", ContainerInfo.mk "exited" false)] false false false false false [] "n")
        (Demo.mk "d1" "lg1" "running" (some "c1") (some "im1") (some 4001))
        (some (Demo.mk "d1" "lg1" "running" (some "c1") (some "im1") (some 4001)))).snd = some d ∧
      ¬ d.status ∈ demo_status_set := by
  refine ⟨Demo.mk "d1" "lg1" "exited" (some "c1") (some "im1") (some 4001), by decide, by decide⟩

/-- C8 (amended): `update_demo_status` keeps the persisted status inside
`{empty, deploying, redeploying, running, error}` provided every
runtime-reported container status lies in that set (the code copies the
runtime status verbatim) and the prior persisted record already satisfied
the invariant. -/
theorem reconcile_preserves_status_set (dk : DockerState) (demo : Demo) (db : Option Demo)
    (hrt : ∀ p, p ∈ dk.containers → p.snd.status ∈ demo_status_set)
    (hdb : ∀ d, db = some d → d.status ∈ demo_status_set) :
    ∀ d, (update_demo_status dk demo db).snd = some d → d.status ∈ demo_status_set := by
  intro d hd
  unfold update_demo_status at hd
  split at hd
  · cases hget : containers_get dk (demo.container_id.getD "") with
    | ok c =>
      rw [hget] at hd
      have hd3 : ({ demo with status := c.status } : Demo) = d := by injection hd
      obtain ⟨p, hmem, hpc⟩ := containers_get_ok_mem hget
      have hps := hrt p hmem
      rw [← hd3]
      simpa [hpc] using hps
    | error e =>
      cases e
      case notFound =>
        rw [hget] at hd
        have hd3 : ({ demo with container_id := none, status := "empty" } : Demo) = d := by
          injection hd
        rw [← hd3]
        show "empty" ∈ demo_status_set
        decide
      all_goals (rw [hget] at hd; exact hdb d hd)
  · exact hdb d hd

/-- Witness for `reconcile_preserves_status_set` on a concrete daemon whose
only container reports status `running`: the record it persists satisfies
the invariant. -/
theorem reconcile_preserves_status_set_witness :
    (Demo.mk "d1" "lg1" "running" (some "c1") none none).status ∈ demo_status_set :=
  reconcile_preserves_status_set
    (DockerState.mk [("c1", ContainerInfo.mk "running" false)] false false false false false [] "n")
    (Demo.mk "d1" "lg1" "empty" (some "c1") none none)
    (some (Demo.mk "d1" "lg1" "empty" (some "c1") none none))
    (by decide)
    (fun d hd => by injection hd with h; rw [← h]; decide)
    (Demo.mk "d1" "lg1" "running" (some "c1") none none)
    (by decide)

/-- C4: given a build log whose final record is the free-text success line
and whose preceding record is the structured `aux` record with
`ID = "sha256:deadbeef00"`, the image id `deploy_demo` extracts and stores is
`deadbeef00`: the digest of the structured record with the `sha256:` prefix
stripped, not the free-text capture `ab12cd34`. -/
theorem deploy_extracts_digest_image_id :
    ∃ d, (deploy_demo "demo1" "/tmp/demo1" sampleWorldFresh).snd.db = some d ∧
      d.image_id = some "deadbeef00" := by
  refine ⟨Demo.mk "demo1" "lg4" "running" (some "cont1") (some "deadbeef00") (some 4001),
    by decide, by decide⟩

/-- C10: `deploy_demo` never reads its `demo_dir` argument — the build
context is resolved from the HOME-based config path joined with `demo_id` —
so any two runs differing only in `demo_dir` coincide. -/
theorem deploy_ignores_demo_dir (demo_id d1 d2 : String) (w : World) :
    deploy_demo demo_id d1 w = deploy_demo demo_id d2 w := rfl

/-- A failing build whose final record is docker's error record (no `stream`
key), and a world holding a previously deployed demo. -/
def sampleFailedBuildLog : List LogRecord := [LogRecord.mk none none]

/-- World for the failed-build scenario: a running demo to be redeployed and
a daemon whose next build emits only `sampleFailedBuildLog`. -/
def sampleWorldFailedBuild : World :=
  World.mk (some (Demo.mk "d7" "lg7" "running" (some "c70") (some "im0") (some 7001)))
    (DockerState.mk [("c70", ContainerInfo.mk "running" false)] false false false false false
      sampleFailedBuildLog "c71")
    [] "x" 9

/-- C7: when the final build record carries no `stream` member (docker's
error record for a failed build), `deploy_demo` evaluates
`response[-1]['stream']` outside the inner try, so the `KeyError` escapes the
task: the build log is persisted under the demo's logId, but the status is
left at `redeploying` instead of being set to `error`, and the exception is
re-raised past `deploy`. -/
theorem deploy_missing_stream_escapes :
    (deploy_demo "d7" "/x" sampleWorldFailedBuild).fst = DeployOutcome.raised PyExc.keyError ∧
    (deploy_demo "d7" "/x" sampleWorldFailedBuild).snd.db =
      some (Demo.mk "d7" "lg7" "redeploying" none none (some 7001)) ∧
    (deploy_demo "d7" "/x" sampleWorldFailedBuild).snd.logs =
      [("lg7", sampleFailedBuildLog)] := by
  refine ⟨by decide, by decide, by decide⟩


/-- Every launch step completes and persists a record whose status is
`running` or `error`. -/
theorem launch_and_save_status (demo3 : Demo) (w1 : World) :
    ∃ d, (launch_and_save demo3 w1).snd.db = some d ∧
      (d.status = "running" ∨ d.status = "error") := by
  unfold launch_and_save
  rcases hrun : containers_run w1.docker with e | p
  · exact ⟨_, rfl, Or.inr rfl⟩
  · exact ⟨_, rfl, Or.inl rfl⟩

/-- If the post-log part of deploy completes normally, the persisted status
is `running` or `error`. -/
theorem build_finish_status (demo : Demo) (w1 : World) (response : List LogRecord)
    (h : (build_finish demo w1 response).fst = DeployOutcome.completed) :
    ∃ d, (build_finish demo w1 response).snd.db = some d ∧
      (d.status = "running" ∨ d.status = "error") := by
  revert h
  unfold build_finish
  rcases hF : final_stream response with e | sfinal
  · intro h; simp at h
  · dsimp only
    rcases hP : parse_image_id (success_match (pyStrip sfinal)) response with e | i
    · intro _; exact ⟨_, rfl, Or.inr rfl⟩
    · intro _; exact launch_and_save_status _ _

/-- If the post-reclaim deploy body completes normally, the persisted status
is `running` or `error`. -/
theorem deploy_body_status (demo_id : String) (w0 : World)
    (h : (deploy_body demo_id w0).fst = DeployOutcome.completed) :
    ∃ d, (deploy_body demo_id w0).snd.db = some d ∧
      (d.status = "running" ∨ d.status = "error") := by
  revert h
  unfold deploy_body
  rcases hdb : w0.db with _ | d0 <;> cases hbf : w0.docker.buildFail <;>
    simp only [Bool.false_eq_true, if_false, if_true]
  · intro _; exact build_finish_status _ _ _ (by assumption)
  · intro _; exact ⟨_, rfl, Or.inr rfl⟩
  · intro _; exact build_finish_status _ _ _ (by assumption)
  · intro _; exact ⟨_, rfl, Or.inr rfl⟩

/-- C1: every `deploy_demo` invocation that returns normally (no early abort
on a reclaim `ConnectionError`, no escaped exception) leaves the persisted
status at `running` or `error`, never `deploying` or `redeploying`. -/
theorem deploy_returns_terminal_status (demo_id demo_dir : String) (w : World)
    (h : (deploy_demo demo_id demo_dir w).fst = DeployOutcome.completed) :
    ∃ d, (deploy_demo demo_id demo_dir w).snd.db = some d ∧
      (d.status = "running" ∨ d.status = "error") := by
  revert h
  unfold deploy_demo
  rcases hr : remove_demo_instance_if_exist demo_id "redeploying" w with ⟨r, w0⟩
  cases r with
  | error e => intro h; simp at h
  | ok v => exact deploy_body_status demo_id w0

/-- Witness for `deploy_returns_terminal_status`: a concrete fresh deploy
that completes with status `running`. -/
theorem deploy_returns_terminal_status_witness :
    ∃ d, (deploy_demo "demo1" "/tmp/demo1" sampleWorldFresh).snd.db = some d ∧
      (d.status = "running" ∨ d.status = "error") :=
  deploy_returns_terminal_status "demo1" "/tmp/demo1" sampleWorldFresh (by decide)


/-- Whether, as observed through the daemon, the demo's container is already
gone: there is no record, the record holds no (truthy) container id, or a
lookup for it reports `NotFound`. -/
def containerGone (w : World) : Bool :=
  match w.db with
  | none => true
  | some d =>
    if strTruthy d.container_id then
      match containers_get w.docker (d.container_id.getD "") with
      | .error .notFound => true
      | _ => false
    else true

/-- A filtered-out key is never found again. -/
theorem find?_filter_self_none (cid : String) (l : List (String × ContainerInfo)) :
    (l.filter (fun p => !(decide (p.fst = cid)))).find? (fun p => decide (p.fst = cid)) = none := by
  induction l with
  | nil => rfl
  | cons hd tl ih =>
    by_cases hc : hd.fst = cid
    · simp [List.filter, hc, ih]
    · simp [List.filter, List.find?, hc, ih]

/-- Finding a key after the stop rewrite yields the exited entry. -/
theorem find?_stopEntry_map (cid : String) (ar : Bool) (l : List (String × ContainerInfo))
    (pc : String × ContainerInfo)
    (h : l.find? (fun p => decide (p.fst = cid)) = some pc) :
    (l.map (stopEntry cid ar)).find? (fun p => decide (p.fst = cid))
      = some (pc.fst, ContainerInfo.mk "exited" ar) := by
  induction l with
  | nil => simp at h
  | cons hd tl ih =>
    rw [List.map_cons]
    by_cases hc : hd.fst = cid
    · rw [List.find?_cons_of_pos _ (by simp [hc])] at h
      injection h with h
      rw [List.find?_cons_of_pos _ (by simp [stopEntry, hc])]
      rw [← h]
      simp [stopEntry, hc]
    · rw [List.find?_cons_of_neg _ (by simp [hc])] at h
      rw [List.find?_cons_of_neg _ (by simp [stopEntry, hc])]
      exact ih h

/-- When the container is already gone, `remove_demo_instance_if_exist` is a
no-op returning `None`. -/
theorem reclaim_gone (demo_id st : String) (w : World)
    (h : containerGone w = true) :
    remove_demo_instance_if_exist demo_id st w = (Except.ok none, w) := by
  revert h
  unfold containerGone remove_demo_instance_if_exist
  rcases hdb : w.db with _ | demo
  · intro _; rfl
  · dsimp only
    cases hct : strTruthy demo.container_id
    · intro _
      simp [hct]
    · rcases hget : containers_get w.docker (demo.container_id.getD "") with e | c
      · cases e
        · intro _
          simp [hct]
        all_goals (intro h; simp [hct] at h)
      · intro h; simp [hct] at h

/-- Characterization of `containers_get` when the daemon is reachable and
the container is present. -/
theorem containers_get_found (dk : DockerState) (cid : String)
    (pc : String × ContainerInfo)
    (hgf : dk.getFail = false)
    (hfind : dk.containers.find? (fun p => decide (p.fst = cid)) = some pc) :
    containers_get dk cid = Except.ok pc.snd := by
  unfold containers_get lookupContainer
  rw [hgf, hfind]
  simp

/-- Characterization of `containers_get` when the daemon is reachable and
the container is absent. -/
theorem containers_get_absent (dk : DockerState) (cid : String)
    (hgf : dk.getFail = false)
    (hfind : dk.containers.find? (fun p => decide (p.fst = cid)) = none) :
    containers_get dk cid = Except.error PyExc.notFound := by
  unfold containers_get lookupContainer
  rw [hgf, hfind]
  simp

/-- Characterization of `containers_get` on a transport failure. -/
theorem containers_get_api (dk : DockerState) (cid : String)
    (hgf : dk.getFail = true) :
    containers_get dk cid = Except.error PyExc.apiError := by
  unfold containers_get
  rw [hgf]
  simp

/-- Characterization of `container_stop` on a transport failure. -/
theorem container_stop_api (dk : DockerState) (cid : String)
    (hsf : dk.stopFail = true) :
    container_stop dk cid = Except.error PyExc.apiError := by
  unfold container_stop
  rw [hsf]
  simp

/-- Characterization of `container_stop` on a present container without
auto-remove: its status becomes `exited`. -/
theorem container_stop_exited (dk : DockerState) (cid : String)
    (pc : String × ContainerInfo)
    (hsf : dk.stopFail = false)
    (hfind : dk.containers.find? (fun p => decide (p.fst = cid)) = some pc)
    (har : pc.snd.autoRemove = false) :
    container_stop dk cid = Except.ok { dk with containers := dk.containers.map (stopEntry cid false) } := by
  unfold container_stop lookupContainer
  rw [hsf, hfind]
  simp [har]

/-- Characterization of `container_stop` on a present auto-remove container:
the daemon deletes it. -/
theorem container_stop_autoremove (dk : DockerState) (cid : String)
    (pc : String × ContainerInfo)
    (hsf : dk.stopFail = false)
    (hfind : dk.containers.find? (fun p => decide (p.fst = cid)) = some pc)
    (har : pc.snd.autoRemove = true) :
    container_stop dk cid = Except.ok (removeContainer dk cid) := by
  unfold container_stop lookupContainer
  rw [hsf, hfind]
  simp [har]

/-- Characterization of `container_remove` on a transport failure. -/
theorem container_remove_api (dk : DockerState) (cid : String)
    (hrf : dk.removeFail = true) :
    container_remove dk cid = Except.error PyExc.apiError := by
  unfold container_remove
  rw [hrf]
  simp

/-- Characterization of `container_remove` on a present container. -/
theorem container_remove_found (dk : DockerState) (cid : String)
    (pc : String × ContainerInfo)
    (hrf : dk.removeFail = false)
    (hfind : dk.containers.find? (fun p => decide (p.fst = cid)) = some pc) :
    container_remove dk cid = Except.ok (removeContainer dk cid) := by
  unfold container_remove lookupContainer
  rw [hrf, hfind]
  simp

/-- C2: running `remove_demo_instance_if_exist` twice in a row with no
external change in between leaves the persisted record exactly as the first
call left it, and the second call raises nothing once the container is
already gone. -/
theorem reclaim_idempotent (demo_id st : String) (w : World) :
    ((remove_demo_instance_if_exist demo_id st
        (remove_demo_instance_if_exist demo_id st w).snd).snd.db
      = (remove_demo_instance_if_exist demo_id st w).snd.db)
    ∧ (containerGone (remove_demo_instance_if_exist demo_id st w).snd = true →
        ∃ v, (remove_demo_instance_if_exist demo_id st
          (remove_demo_instance_if_exist demo_id st w).snd).fst = Except.ok v) := by
  rcases hdb : w.db with _ | demo
  · -- no record: both calls are no-ops
    have hg : containerGone w = true := by unfold containerGone; rw [hdb]
    rw [reclaim_gone demo_id st w hg]
    dsimp only
    rw [reclaim_gone demo_id st w hg]
    exact ⟨rfl, fun _ => ⟨none, rfl⟩⟩
  · cases hct : strTruthy demo.container_id
    · -- no (truthy) container id: both calls are no-ops
      have hg : containerGone w = true := by
        unfold containerGone; rw [hdb]; simp [hct]
      rw [reclaim_gone demo_id st w hg]
      dsimp only
      rw [reclaim_gone demo_id st w hg]
      exact ⟨rfl, fun _ => ⟨none, rfl⟩⟩
    · cases hgf : w.docker.getFail
      · rcases hfind : w.docker.containers.find? (fun p => decide (p.fst = demo.container_id.getD "")) with _ | pc
        · -- container not found: both calls are no-ops
          have hget : containers_get w.docker (demo.container_id.getD "") = Except.error PyExc.notFound :=
            containers_get_absent _ _ hgf hfind
          have hg : containerGone w = true := by
            unfold containerGone; rw [hdb]; simp [hct, hget]
          rw [reclaim_gone demo_id st w hg]
          dsimp only
          rw [reclaim_gone demo_id st w hg]
          exact ⟨rfl, fun _ => ⟨none, rfl⟩⟩
        · have hget : containers_get w.docker (demo.container_id.getD "") = Except.ok pc.snd :=
            containers_get_found _ _ pc hgf hfind
          cases hsf : w.docker.stopFail
          · cases har : pc.snd.autoRemove
            · -- stop leaves the container exited
              have hstop : container_stop w.docker (demo.container_id.getD "") = Except.ok { w.docker with containers := w.docker.containers.map (stopEntry (demo.container_id.getD "") false) } :=
                container_stop_exited _ _ pc hsf hfind har
              have hfind1 : (w.docker.containers.map (stopEntry (demo.container_id.getD "") false)).find? (fun p => decide (p.fst = demo.container_id.getD "")) = some (pc.fst, ContainerInfo.mk "exited" false) :=
                find?_stopEntry_map _ _ _ pc hfind
              have hget1 : containers_get { w.docker with containers := w.docker.containers.map (stopEntry (demo.container_id.getD "") false) } (demo.container_id.getD "") = Except.ok (ContainerInfo.mk "exited" false) :=
                containers_get_found _ _ (pc.fst, ContainerInfo.mk "exited" false) hgf hfind1
              cases hrf : w.docker.removeFail
              · -- removal succeeds: the record is reclaimed, container gone
                have hrem : container_remove { w.docker with containers := w.docker.containers.map (stopEntry (demo.container_id.getD "") false) } (demo.container_id.getD "") = Except.ok (removeContainer { w.docker with containers := w.docker.containers.map (stopEntry (demo.container_id.getD "") false) } (demo.container_id.getD "")) :=
                  container_remove_found _ _ (pc.fst, ContainerInfo.mk "exited" false) hrf hfind1
                have h1 : remove_demo_instance_if_exist demo_id st w = (Except.ok (some { demo with status := st, container_id := none, image_id := none }), { w with db := some { demo with status := st, container_id := none, image_id := none }, docker := removeContainer { w.docker with containers := w.docker.containers.map (stopEntry (demo.container_id.getD "") false) } (demo.container_id.getD "") }) := by
                  unfold remove_demo_instance_if_exist
                  rw [hdb]
                  simp [hct, hget, hstop, hget1, hrem]
                rw [h1]
                dsimp only
                have hg1 : containerGone { w with db := some { demo with status := st, container_id := none, image_id := none }, docker := removeContainer { w.docker with containers := w.docker.containers.map (stopEntry (demo.container_id.getD "") false) } (demo.container_id.getD "") } = true := by
                  unfold containerGone; simp [strTruthy]
                rw [reclaim_gone demo_id st _ hg1]
                exact ⟨rfl, fun _ => ⟨none, rfl⟩⟩
              · -- removal hits a transport failure twice: same error state
                have hrem : container_remove { w.docker with containers := w.docker.containers.map (stopEntry (demo.container_id.getD "") false) } (demo.container_id.getD "") = Except.error PyExc.apiError :=
                  container_remove_api _ _ hrf
                have h1 : remove_demo_instance_if_exist demo_id st w = (Except.error PyExc.origamiConnErr, { w with db := some { demo with status := "error" }, docker := { w.docker with containers := w.docker.containers.map (stopEntry (demo.container_id.getD "") false) } }) := by
                  unfold remove_demo_instance_if_exist
                  rw [hdb]
                  simp [hct, hget, hstop, hget1, hrem]
                rw [h1]
                dsimp only
                have hfind2 : ((w.docker.containers.map (stopEntry (demo.container_id.getD "") false)).map (stopEntry (demo.container_id.getD "") false)).find? (fun p => decide (p.fst = demo.container_id.getD "")) = some (pc.fst, ContainerInfo.mk "exited" false) :=
                  find?_stopEntry_map _ _ _ (pc.fst, ContainerInfo.mk "exited" false) hfind1
                have hstop1 : container_stop { w.docker with containers := w.docker.containers.map (stopEntry (demo.container_id.getD "") false) } (demo.container_id.getD "") = Except.ok { { w.docker with containers := w.docker.containers.map (stopEntry (demo.container_id.getD "") false) } with containers := ({ w.docker with containers := w.docker.containers.map (stopEntry (demo.container_id.getD "") false) } : DockerState).containers.map (stopEntry (demo.container_id.getD "") false) } :=
                  container_stop_exited _ _ (pc.fst, ContainerInfo.mk "exited" false) hsf hfind1 rfl
                have hget2 : containers_get { w.docker with containers := (w.docker.containers.map (stopEntry (demo.container_id.getD "") false)).map (stopEntry (demo.container_id.getD "") false) } (demo.container_id.getD "") = Except.ok (ContainerInfo.mk "exited" false) :=
                  containers_get_found _ _ (pc.fst, ContainerInfo.mk "exited" false) hgf hfind2
                have hrem2 : container_remove { w.docker with containers := (w.docker.containers.map (stopEntry (demo.container_id.getD "") false)).map (stopEntry (demo.container_id.getD "") false) } (demo.container_id.getD "") = Except.error PyExc.apiError :=
                  container_remove_api _ _ hrf
                have h2 : remove_demo_instance_if_exist demo_id st { w with db := some { demo with status := "error" }, docker := { w.docker with containers := w.docker.containers.map (stopEntry (demo.container_id.getD "") false) } } = (Except.error PyExc.origamiConnErr, { w with db := some { demo with status := "error" }, docker := { w.docker with containers := (w.docker.containers.map (stopEntry (demo.container_id.getD "") false)).map (stopEntry (demo.container_id.getD "") false) } }) := by
                  unfold remove_demo_instance_if_exist
                  simp [hct, hget1, hstop1, hget2, hrem2, -List.map_map]
                rw [h2]
                refine ⟨rfl, ?_⟩
                intro hgone
                have hgf1 : containerGone { w with db := some { demo with status := "error" }, docker := { w.docker with containers := w.docker.containers.map (stopEntry (demo.container_id.getD "") false) } } = false := by
                  unfold containerGone; simp [hct, hget1]
                rw [hgf1] at hgone
                simp at hgone
            · -- auto-remove: stop already deleted the container
              have hstop : container_stop w.docker (demo.container_id.getD "") = Except.ok (removeContainer w.docker (demo.container_id.getD "")) :=
                container_stop_autoremove _ _ pc hsf hfind har
              have hget1 : containers_get (removeContainer w.docker (demo.container_id.getD "")) (demo.container_id.getD "") = Except.error PyExc.notFound :=
                containers_get_absent _ _ hgf (find?_filter_self_none _ _)
              have h1 : remove_demo_instance_if_exist demo_id st w = (Except.ok (some { demo with status := st, container_id := none, image_id := none }), { w with db := some { demo with status := st, container_id := none, image_id := none }, docker := removeContainer w.docker (demo.container_id.getD "") }) := by
                unfold remove_demo_instance_if_exist
                rw [hdb]
                simp [hct, hget, hstop, hget1]
              rw [h1]
              dsimp only
              have hg1 : containerGone { w with db := some { demo with status := st, container_id := none, image_id := none }, docker := removeContainer w.docker (demo.container_id.getD "") } = true := by
                unfold containerGone; simp [strTruthy]
              rw [reclaim_gone demo_id st _ hg1]
              exact ⟨rfl, fun _ => ⟨none, rfl⟩⟩
          · -- stop hits a transport failure twice: same error state
            have hstop : container_stop w.docker (demo.container_id.getD "") = Except.error PyExc.apiError :=
              container_stop_api _ _ hsf
            have h1 : remove_demo_instance_if_exist demo_id st w = (Except.error PyExc.origamiConnErr, { w with db := some { demo with status := "error" } }) := by
              unfold remove_demo_instance_if_exist
              rw [hdb]
              simp [hct, hget, hstop]
            rw [h1]
            dsimp only
            have h2 : remove_demo_instance_if_exist demo_id st { w with db := some { demo with status := "error" } } = (Except.error PyExc.origamiConnErr, { w with db := some { demo with status := "error" } }) := by
              unfold remove_demo_instance_if_exist
              simp [hct, hget, hstop]
            rw [h2]
            refine ⟨rfl, ?_⟩
            intro hgone
            have hgf1 : containerGone { w with db := some { demo with status := "error" } } = false := by
              unfold containerGone; simp [hct, hget]
            rw [hgf1] at hgone
            simp at hgone
      · -- the daemon is unreachable twice: same error state
        have hget : containers_get w.docker (demo.container_id.getD "") = Except.error PyExc.apiError :=
          containers_get_api _ _ hgf
        have h1 : remove_demo_instance_if_exist demo_id st w = (Except.error PyExc.origamiConnErr, { w with db := some { demo with status := "error" } }) := by
          unfold remove_demo_instance_if_exist
          rw [hdb]
          simp [hct, hget]
        rw [h1]
        dsimp only
        have h2 : remove_demo_instance_if_exist demo_id st { w with db := some { demo with status := "error" } } = (Except.error PyExc.origamiConnErr, { w with db := some { demo with status := "error" } }) := by
          unfold remove_demo_instance_if_exist
          simp [hct, hget]
        rw [h2]
        refine ⟨rfl, ?_⟩
        intro hgone
        have hgf1 : containerGone { w with db := some { demo with status := "error" } } = false := by
          unfold containerGone; simp [hct, hget]
        rw [hgf1] at hgone
        simp at hgone

/-- A world holding a running demo whose container the daemon still has:
the first reclaim removes it, the second is a no-op. -/
def sampleWorldReclaim : World :=
  World.mk (some (Demo.mk "d2" "lg2" "running" (some "c20") (some "im2") (some 6000)))
    (DockerState.mk [("c20", ContainerInfo.mk "running" false)] false false false false false [] "x")
    [] "f" 1

/-- Witness for `reclaim_idempotent` on `sampleWorldReclaim`, where the
container is gone after the first call. -/
theorem reclaim_idempotent_witness :
    ((remove_demo_instance_if_exist "d2" "empty"
        (remove_demo_instance_if_exist "d2" "empty" sampleWorldReclaim).snd).snd.db
      = (remove_demo_instance_if_exist "d2" "empty" sampleWorldReclaim).snd.db)
    ∧ (∃ v, (remove_demo_instance_if_exist "d2" "empty"
        (remove_demo_instance_if_exist "d2" "empty" sampleWorldReclaim).snd).fst
          = Except.ok v) :=
  ⟨(reclaim_idempotent "d2" "empty" sampleWorldReclaim).1,
   (reclaim_idempotent "d2" "empty" sampleWorldReclaim).2 (by decide)⟩

/-- A successful `container_stop` never changes the daemon's failure
flags; in particular `buildFail` is preserved. -/
theorem container_stop_ok_buildFail {dk : DockerState} {cid : String} {dk2 : DockerState}
    (h : container_stop dk cid = Except.ok dk2) : dk2.buildFail = dk.buildFail := by
  unfold container_stop at h
  cases hsf : dk.stopFail <;> rw [hsf] at h
  · rcases hlk : lookupContainer dk cid with _ | c <;> rw [hlk] at h
    · simp at h
    · simp at h
      cases har : c.autoRemove <;> rw [har] at h <;> simp at h
      · rw [← h]
      · rw [← h]
        unfold removeContainer
        rfl
  · simp at h

/-- A successful `container_remove` preserves `buildFail` as well. -/
theorem container_remove_ok_buildFail {dk : DockerState} {cid : String} {dk2 : DockerState}
    (h : container_remove dk cid = Except.ok dk2) : dk2.buildFail = dk.buildFail := by
  unfold container_remove at h
  cases hrf : dk.removeFail <;> rw [hrf] at h
  · rcases hlk : lookupContainer dk cid with _ | c <;> rw [hlk] at h
    · simp at h
    · simp at h
      rw [← h]
      unfold removeContainer
      rfl
  · simp at h

/-- After a reclaim, the persisted record is either untouched, or the prior
record with `status = 'error'`, or the prior record reclaimed to the target
status with `container_id` and `image_id` cleared; and the daemon's
`buildFail` behaviour is untouched. -/
theorem reclaim_after (demo_id st : String) (w : World) :
    ((remove_demo_instance_if_exist demo_id st w).snd.db = w.db ∨
     (∃ demo, w.db = some demo ∧
       ((remove_demo_instance_if_exist demo_id st w).snd.db
           = some { demo with status := "error" } ∨
        (remove_demo_instance_if_exist demo_id st w).snd.db
           = some { demo with status := st, container_id := none, image_id := none })))
    ∧ (remove_demo_instance_if_exist demo_id st w).snd.docker.buildFail
        = w.docker.buildFail := by
  unfold remove_demo_instance_if_exist
  rcases hdb : w.db with _ | demo
  · exact ⟨Or.inl hdb, rfl⟩
  · dsimp only
    cases hct : strTruthy demo.container_id
    · rw [if_neg (by simp [hct])]
      exact ⟨Or.inl hdb, rfl⟩
    · rw [if_pos (by simp [hct])]
      rcases hget : containers_get w.docker (demo.container_id.getD "") with e | c
      · cases e
        · exact ⟨Or.inl hdb, rfl⟩
        · exact ⟨Or.inr ⟨demo, rfl, Or.inl rfl⟩, rfl⟩
        · exact ⟨Or.inr ⟨demo, rfl, Or.inl rfl⟩, rfl⟩
        · exact ⟨Or.inr ⟨demo, rfl, Or.inl rfl⟩, rfl⟩
        · exact ⟨Or.inr ⟨demo, rfl, Or.inl rfl⟩, rfl⟩
        · exact ⟨Or.inr ⟨demo, rfl, Or.inl rfl⟩, rfl⟩
      · rcases hstop : container_stop w.docker (demo.container_id.getD "") with e | dk1
        · cases e
          · exact ⟨Or.inl hdb, rfl⟩
          · exact ⟨Or.inr ⟨demo, rfl, Or.inl rfl⟩, rfl⟩
          · exact ⟨Or.inr ⟨demo, rfl, Or.inl rfl⟩, rfl⟩
          · exact ⟨Or.inr ⟨demo, rfl, Or.inl rfl⟩, rfl⟩
          · exact ⟨Or.inr ⟨demo, rfl, Or.inl rfl⟩, rfl⟩
          · exact ⟨Or.inr ⟨demo, rfl, Or.inl rfl⟩, rfl⟩
        · dsimp only
          rcases hg1 : containers_get dk1 (demo.container_id.getD "") with e | c1
          · cases e
            · exact ⟨Or.inr ⟨demo, rfl, Or.inr rfl⟩, container_stop_ok_buildFail hstop⟩
            · exact ⟨Or.inr ⟨demo, rfl, Or.inl rfl⟩, container_stop_ok_buildFail hstop⟩
            · exact ⟨Or.inr ⟨demo, rfl, Or.inl rfl⟩, container_stop_ok_buildFail hstop⟩
            · exact ⟨Or.inr ⟨demo, rfl, Or.inl rfl⟩, container_stop_ok_buildFail hstop⟩
            · exact ⟨Or.inr ⟨demo, rfl, Or.inl rfl⟩, container_stop_ok_buildFail hstop⟩
            · exact ⟨Or.inr ⟨demo, rfl, Or.inl rfl⟩, container_stop_ok_buildFail hstop⟩
          · rcases hrm : container_remove dk1 (demo.container_id.getD "") with e | dk2
            · cases e
              · exact ⟨Or.inr ⟨demo, rfl, Or.inr rfl⟩, container_stop_ok_buildFail hstop⟩
              · exact ⟨Or.inr ⟨demo, rfl, Or.inl rfl⟩, container_stop_ok_buildFail hstop⟩
              · exact ⟨Or.inr ⟨demo, rfl, Or.inl rfl⟩, container_stop_ok_buildFail hstop⟩
              · exact ⟨Or.inr ⟨demo, rfl, Or.inl rfl⟩, container_stop_ok_buildFail hstop⟩
              · exact ⟨Or.inr ⟨demo, rfl, Or.inl rfl⟩, container_stop_ok_buildFail hstop⟩
              · exact ⟨Or.inr ⟨demo, rfl, Or.inl rfl⟩, container_stop_ok_buildFail hstop⟩
            · exact ⟨Or.inr ⟨demo, rfl, Or.inr rfl⟩,
                (container_remove_ok_buildFail hrm).trans (container_stop_ok_buildFail hstop)⟩

/-- A world holding a running demo (port 4001, container present) and a
daemon ready to rebuild `sampleBuildLog`. -/
def sampleWorldRedeploy : World :=
  World.mk (some (Demo.mk "demo1" "lg4" "running" (some "c1") (some "im1") (some 4001)))
    (DockerState.mk [("c1", ContainerInfo.mk "running" false)] false false false false false
      sampleBuildLog "c2")
    [] "u" 7777

/-- The launch step never touches an already-assigned (truthy) port. -/
theorem launch_and_save_port (demo3 : Demo) (w1 : World) (p : Nat)
    (hport : demo3.port = some p) (hp : p ≠ 0) :
    ∃ d, (launch_and_save demo3 w1).snd.db = some d ∧ d.port = some p := by
  have hnt : natTruthy demo3.port = true := by
    rw [hport]; simp [natTruthy, hp]
  unfold launch_and_save
  rw [if_pos hnt]
  rcases hrun : containers_run w1.docker with e | pr
  · exact ⟨_, rfl, hport⟩
  · exact ⟨_, rfl, hport⟩

/-- The post-log deploy steps never touch an already-assigned port. -/
theorem build_finish_port (demo : Demo) (w1 : World) (response : List LogRecord) (p : Nat)
    (hdb1 : w1.db = some demo) (hport : demo.port = some p) (hp : p ≠ 0) :
    ∃ d, (build_finish demo w1 response).snd.db = some d ∧ d.port = some p := by
  unfold build_finish
  rcases hF : final_stream response with e | sfinal
  · exact ⟨demo, hdb1, hport⟩
  · dsimp only
    rcases hP : parse_image_id (success_match (pyStrip sfinal)) response with e | i
    · exact ⟨_, rfl, hport⟩
    · exact launch_and_save_port _ _ p hport hp

/-- The deploy body never touches an already-assigned port. -/
theorem deploy_body_port (demo_id : String) (w0 : World) (d0 : Demo) (p : Nat)
    (hdb : w0.db = some d0) (hport : d0.port = some p) (hp : p ≠ 0) :
    ∃ d, (deploy_body demo_id w0).snd.db = some d ∧ d.port = some p := by
  unfold deploy_body
  rw [hdb]
  dsimp only
  cases hbf : w0.docker.buildFail
  · rw [if_neg (by simp)]
    exact build_finish_port d0 _ w0.docker.buildLog p rfl hport hp
  · rw [if_pos (by simp)]
    exact ⟨_, rfl, hport⟩

/-- C5: a deploy for a demo whose port is already assigned leaves the
persisted port unchanged: the launch step observes the existing (nonzero)
port and never calls the allocator, whatever the deploy's outcome. -/
theorem deploy_preserves_assigned_port (demo_id demo_dir : String) (w : World)
    (demo : Demo) (p : Nat)
    (hdb : w.db = some demo) (hport : demo.port = some p) (hp : p ≠ 0) :
    ∃ d, (deploy_demo demo_id demo_dir w).snd.db = some d ∧ d.port = some p := by
  unfold deploy_demo
  have hsh := (reclaim_after demo_id "redeploying" w).1
  rcases hr : remove_demo_instance_if_exist demo_id "redeploying" w with ⟨r, w0⟩
  rw [hr] at hsh
  have hport0 : ∃ d0, w0.db = some d0 ∧ d0.port = some p := by
    rcases hsh with h | ⟨demo2, hdemo2, h | h⟩
    · exact ⟨demo, by rw [h, hdb], hport⟩
    · rw [hdb] at hdemo2
      injection hdemo2 with hdemo2
      exact ⟨_, h, by rw [← hdemo2]; exact hport⟩
    · rw [hdb] at hdemo2
      injection hdemo2 with hdemo2
      exact ⟨_, h, by rw [← hdemo2]; exact hport⟩
  obtain ⟨d0, hdb0, hport0⟩ := hport0
  cases r with
  | error e => exact ⟨d0, hdb0, hport0⟩
  | ok v => exact deploy_body_port demo_id w0 d0 p hdb0 hport0 hp

/-- Witness for `deploy_preserves_assigned_port`: a concrete redeploy of a
running demo with port 4001 keeps port 4001. -/
theorem deploy_preserves_assigned_port_witness :
    ∃ d, (deploy_demo "demo1" "/tmp/demo1" sampleWorldRedeploy).snd.db = some d ∧
      d.port = some 4001 :=
  deploy_preserves_assigned_port "demo1" "/tmp/demo1" sampleWorldRedeploy
    (Demo.mk "demo1" "lg4" "running" (some "c1") (some "im1") (some 4001)) 4001
    (by decide) (by decide) (by decide)

/-- A fresh demo, a healthy build, but a daemon that fails `containers.run`:
the deploy allocates port 5000 before the failing run call. -/
def sampleWorldRunFail : World :=
  World.mk none (DockerState.mk [] false false false false true sampleBuildLog "c91")
    [] "lg9" 5000

/-- C9 counterexample: a deploy whose container-run call raises a transport
error still persists the freshly allocated port (the allocation at lines
187-190 precedes the run call, and the final save keeps it). -/
theorem deploy_failed_run_persists_port :
    ∃ d, (deploy_demo "d9" "/x" sampleWorldRunFail).snd.db = some d ∧
      d.status = "error" ∧ d.port = some 5000 :=
  ⟨Demo.mk "d9" "lg9" "error" none (some "deadbeef00") (some 5000),
    by decide, by decide, by decide⟩

/-- When the build itself raises a transport failure, the deploy body saves
the record before ever reaching the port allocation. -/
theorem deploy_body_buildfail_port (demo_id : String) (w0 : World)
    (hbf0 : w0.docker.buildFail = true)
    (hport0 : ∀ d0, w0.db = some d0 → d0.port = none) :
    ∀ d, (deploy_body demo_id w0).snd.db = some d → d.port = none := by
  unfold deploy_body
  rcases hdb0 : w0.db with _ | d0 <;> dsimp only <;> rw [if_pos (by simp [hbf0])]
  · intro d hd
    injection hd with hd
    rw [← hd]
  · intro d hd
    injection hd with hd
    rw [← hd]
    exact hport0 d0 hdb0

/-- C9 (amended): a deploy attempt that fails before the port-allocation
step — for example, the build raises a transport error — does not leave the
persisted record with a newly allocated port; only a failure in the
container-run step, after allocation, persists a new port. -/
theorem deploy_build_failure_keeps_port_absent (demo_id demo_dir : String) (w : World)
    (hport : ∀ d, w.db = some d → d.port = none)
    (hbf : w.docker.buildFail = true) :
    ∀ d, (deploy_demo demo_id demo_dir w).snd.db = some d → d.port = none := by
  unfold deploy_demo
  have hsh := (reclaim_after demo_id "redeploying" w).1
  have hbf0 := (reclaim_after demo_id "redeploying" w).2
  rcases hr : remove_demo_instance_if_exist demo_id "redeploying" w with ⟨r, w0⟩
  rw [hr] at hsh hbf0
  have hport0 : ∀ d0, w0.db = some d0 → d0.port = none := by
    intro d0 hd0
    rcases hsh with h | ⟨demo2, hdemo2, h | h⟩
    · exact hport d0 (by rw [← h, hd0])
    · rw [h] at hd0
      injection hd0 with hd0
      rw [← hd0]
      exact hport demo2 hdemo2
    · rw [h] at hd0
      injection hd0 with hd0
      rw [← hd0]
      exact hport demo2 hdemo2
  cases r with
  | error e => exact fun d hd => hport0 d hd
  | ok v => exact deploy_body_buildfail_port demo_id w0 (hbf0.trans hbf) hport0

/-- A fresh demo whose build raises a transport failure. -/
def sampleWorldBuildFail : World :=
  World.mk none (DockerState.mk [] false false false true false [] "n") [] "lgb" 3

/-- Witness for `deploy_build_failure_keeps_port_absent` on
`sampleWorldBuildFail`: the persisted error record carries no port. -/
theorem deploy_build_failure_keeps_port_absent_witness :
    (Demo.mk "d9b" "lgb" "error" none none none).port = none :=
  deploy_build_failure_keeps_port_absent "d9b" "/x" sampleWorldBuildFail
    (fun _ hd => nomatch hd) rfl
    (Demo.mk "d9b" "lgb" "error" none none none) (by decide)

end Origamid
